import Mathlib

/-!
Shallow embedding of the QCDIS/data-access repository (files
`multiply_data_access/data_set_meta_info_extraction.py` and
`multiply_data_access/aws_s2_file_system.py`) together with theorems
checking the natural-language specification against it.

Python strings are modelled as Lean `String`s manipulated through their
character lists, so that Python slicing (with negative indices), `rfind`,
`split` and `int()`/`float()` conversion keep their exact semantics.
Python exceptions are modelled with `Except PyErr`.  External collaborators
(the `multiply_core` utility library, gdal/osr reprojection, shapely WKT
rendering, the sentinelhub download client and the Python float renderer)
are parameters collected in an `Env` record, as §6 of the specification
treats them as pure external interfaces.
-/

/-- Python exception kinds raised by the embedded code. -/
inductive PyErr where
  | valueError (msg : String)
  | keyError
  | attributeError
  | typeError
  | xmlParseError
  | indexError
  | downloadError
deriving DecidableEq, Repr

/-- Normalize a Python index for slicing over a sequence of length `len`:
negative indices count from the end and are clamped at 0, positive ones are
clamped at `len`. -/
def pyNormIdx (len : Nat) (i : Int) : Nat :=
  if i < 0 then ((len : Int) + i).toNat else min i.toNat len

/-- Python slice `s[a:b]`. -/
def pySlice (s : String) (a b : Int) : String :=
  String.mk ((s.data.take (pyNormIdx s.data.length b)).drop (pyNormIdx s.data.length a))

/-- Python slice `s[a:]`. -/
def pySliceFrom (s : String) (a : Int) : String :=
  String.mk (s.data.drop (pyNormIdx s.data.length a))

/-- Python `s.rfind(c)`: index of the last occurrence of `c`, or `-1`. -/
def pyRfind (s : String) (c : Char) : Int :=
  match s.data.reverse.findIdx? (fun x => x == c) with
  | none => -1
  | some k => (s.data.length : Int) - 1 - k

def pySplitAux (sep : Char) : List Char → List Char → List (List Char)
  | [], acc => [acc.reverse]
  | c :: rest, acc =>
    if c = sep then acc.reverse :: pySplitAux sep rest []
    else pySplitAux sep rest (c :: acc)

/-- Python `s.split(sep)` for a one-character separator. -/
def pySplit (s : String) (sep : Char) : List String :=
  (pySplitAux sep s.data []).map String.mk

/-- Python list indexing `xs[i]` for a non-negative index (IndexError when
out of range). -/
def pyIdx (xs : List α) (i : Nat) : Except PyErr α :=
  match xs.get? i with
  | none => .error .indexError
  | some x => .ok x

/-- Python `xs[-1]` (IndexError on an empty list). -/
def pyLast (xs : List α) : Except PyErr α :=
  match xs.getLast? with
  | none => .error .indexError
  | some x => .ok x

def digitVal (c : Char) : Nat := c.toNat - '0'.toNat

def isDigitChar (c : Char) : Bool := '0' ≤ c && c ≤ '9'

def digitsVal : List Char → Nat → Option Nat
  | [], acc => some acc
  | c :: rest, acc =>
    if isDigitChar c then digitsVal rest (acc * 10 + digitVal c) else none

/-- Value of a non-empty all-digit character list. -/
def parseDigits (cs : List Char) : Option Nat :=
  match cs with
  | [] => none
  | _ => digitsVal cs 0

/-- Python `int(s)`: optional sign followed by at least one digit
(ValueError otherwise). -/
def pyInt (s : String) : Except PyErr Int :=
  match s.data with
  | '-' :: rest =>
    match parseDigits rest with
    | some n => .ok (-(n : Int))
    | none => .error (.valueError "invalid literal for int")
  | '+' :: rest =>
    match parseDigits rest with
    | some n => .ok (n : Int)
    | none => .error (.valueError "invalid literal for int")
  | cs =>
    match parseDigits cs with
    | some n => .ok (n : Int)
    | none => .error (.valueError "invalid literal for int")

def parseUnsignedFloat (cs : List Char) : Option Rat :=
  match pySplitAux '.' cs [] with
  | [ip] => (parseDigits ip).map (fun n => (n : Rat))
  | [ip, fp] =>
    if ip = [] ∧ fp = [] then none
    else
      match digitsVal ip 0, digitsVal fp 0 with
      | some n, some f => some ((n : Rat) + (f : Rat) / ((10 : Rat) ^ fp.length))
      | _, _ => none
  | _ => none

/-- Python `float(s)` restricted to plain decimal literals, as produced by
the XML metadata fields the source reads. -/
def pyFloat (s : String) : Except PyErr Rat :=
  match s.data with
  | '-' :: rest =>
    match parseUnsignedFloat rest with
    | some q => .ok (-q)
    | none => .error (.valueError "could not convert string to float")
  | '+' :: rest =>
    match parseUnsignedFloat rest with
    | some q => .ok q
    | none => .error (.valueError "could not convert string to float")
  | cs =>
    match parseUnsignedFloat cs with
    | some q => .ok q
    | none => .error (.valueError "could not convert string to float")

/-- An XML element as produced by `xml.etree.ElementTree`. -/
inductive Xml where
  | elem (tag : String) (attrs : List (String × String)) (text : Option String)
      (children : List Xml)
deriving Repr

def Xml.tag : Xml → String
  | .elem t _ _ _ => t

def Xml.attrs : Xml → List (String × String)
  | .elem _ a _ _ => a

def Xml.text : Xml → Option String
  | .elem _ _ t _ => t

def Xml.children : Xml → List Xml
  | .elem _ _ _ c => c

/-- `element.findall(tag)`: direct children with the given tag. -/
def Xml.findall (x : Xml) (t : String) : List Xml :=
  x.children.filter (fun c => c.tag == t)

/-- `element.find(tag)`: first direct child with the given tag. -/
def Xml.findChild (x : Xml) (t : String) : Option Xml :=
  (x.findall t).head?

/-- `element.attrib[k]` as an optional lookup. -/
def Xml.attrib (x : Xml) (k : String) : Option String :=
  (x.attrs.find? (fun kv => kv.1 == k)).map (fun kv => kv.2)

/-- The date part of a Python `datetime`. -/
structure PyDate where
  year : Nat
  month : Nat
  day : Nat
deriving DecidableEq, Repr

def pad2 (n : Nat) : String :=
  if n < 10 then "0" ++ toString n else toString n

def pad4 (n : Nat) : String :=
  if n < 10 then "000" ++ toString n
  else if n < 100 then "00" ++ toString n
  else if n < 1000 then "0" ++ toString n
  else toString n

/-- `datetime.strftime('%Y-%m-%d')`. -/
def strftimeYmd (d : PyDate) : String :=
  pad4 d.year ++ "-" ++ pad2 d.month ++ "-" ++ pad2 d.day

/-- External collaborators of the two embedded modules, per §6 of the
specification: XML documents on disk (`ET.parse`), the gdal/osr
reprojection of `multiply_core.util.reproject`, shapely WKT rendering, the
Python float renderer used in string formatting, `multiply_core.util`
time helpers, MIME detection, the sentinelhub download client, and the
`multiply_core.observations.DataTypeConstants` string constants. -/
structure Env where
  files : String → Option Xml
  transformCoords : String → List Rat → List Rat
  showNum : Rat → String
  polygonWkt : List (Rat × Rat) → String
  getTimeFromYearAndDoy : Int → Int → PyDate
  parseTime : String → Option PyDate
  mimeType : String → String
  transformPoint : Rat → Rat → Rat × Rat
  downloadOk : Bool
  scratchVanishes : Bool
  dtAster : String
  dtModisMcd43 : String
  dtS2a : String
  dtS2b : String
  dtWv : String
  dtCams : String

/-- The record type of `multiply_data_access.data_access.DataSetMetaInfo`
(constructor argument order: coverage, start_time, end_time, data_type,
identifier). -/
structure DataSetMetaInfo where
  coverage : String
  start_time : Option String
  end_time : Option String
  data_type : String
  identifier : String
deriving DecidableEq, Repr

/-- `multiply_core.util.FileRef` as used by the embedded code: resolved
path, time range and MIME kind. -/
structure FileRef where
  url : String
  start_time : Option String
  end_time : Option String
  mime : String
deriving DecidableEq, Repr

/-- The `GLOBAL` whole-globe sentinel polygon of
`data_set_meta_info_extraction.py`. -/
def GLOBAL : String :=
  "POLYGON((-180.0 90.0, 180.0 90.0, 180.0 -90.0, -180.0 -90.0, -180.0 90.0))"

/-- The time-string cleanup of
`AwsS2MetaInfoExtractor._extract_time_from_metadata_file`:
`x.text.replace('T', ' ').replace('Z', '')` followed by
`time[:time.rfind('.')]` (note that when no dot is present, `rfind`
returns `-1` and the Python slice drops the last character). -/
def awsSensingTimeClean (t : String) : String :=
  let t1 := String.mk ((t.data.map (fun c => if c = 'T' then ' ' else c)).filter
    (fun c => c ≠ 'Z'))
  pySlice t1 0 (pyRfind t1 '.')

/-- The nested loop of `_extract_time_from_metadata_file`: scan the root
children in order and return the cleaned text of the first
`SENSING_TIME` element found; fall through to `None` when there is none.
A `SENSING_TIME` element whose text is `None` raises (AttributeError on
`None.replace`). -/
def awsFindSensingTime : List Xml → Except PyErr (Option String)
  | [] => .ok none
  | child :: rest =>
    match (child.findall "SENSING_TIME").head? with
    | some x =>
      match x.text with
      | none => .error .attributeError
      | some t => .ok (some (awsSensingTimeClean t))
    | none => awsFindSensingTime rest

/-- `AwsS2MetaInfoExtractor._extract_time_from_metadata_file`. -/
def AwsS2MetaInfoExtractor.extract_time_from_metadata_file (env : Env)
    (filename : String) : Except PyErr (Option String) :=
  match env.files (filename ++ "/metadata.xml") with
  | none => .error .xmlParseError
  | some root => awsFindSensingTime root.children

/-- The six accumulator variables of
`AwsS2MetaInfoExtractor._extract_coverage`, all initialized to `0`. -/
structure GeoState where
  ulx : Rat
  uly : Rat
  x_dim : Rat
  y_dim : Rat
  n_rows : Rat
  n_cols : Rat

def geoState0 : GeoState := ⟨0, 0, 0, 0, 0, 0⟩

/-- `float(element.find(t).text)`: AttributeError when the child is
missing, TypeError when its text is `None`, ValueError when the text is
not a float literal. -/
def xmlChildFloat (e : Xml) (t : String) : Except PyErr Rat :=
  match e.findChild t with
  | none => .error .attributeError
  | some x =>
    match x.text with
    | none => .error .typeError
    | some s => pyFloat s

/-- One iteration of the inner loop of `_extract_coverage` over the
children of a `Tile_Geocoding` element. -/
def geoStep (st : GeoState) (element : Xml) : Except PyErr GeoState :=
  if element.tag == "Size" then
    match element.attrib "resolution" with
    | none => .error .keyError
    | some r =>
      if r == "60" then do
        let nr ← xmlChildFloat element "NROWS"
        let nc ← xmlChildFloat element "NCOLS"
        pure { st with n_rows := nr, n_cols := nc }
      else pure st
  else if element.tag == "Geoposition" then
    match element.attrib "resolution" with
    | none => .error .keyError
    | some r =>
      if r == "60" then do
        let a ← xmlChildFloat element "ULX"
        let b ← xmlChildFloat element "ULY"
        let c ← xmlChildFloat element "XDIM"
        let d ← xmlChildFloat element "YDIM"
        pure { st with ulx := a, uly := b, x_dim := c, y_dim := d }
      else pure st
  else pure st

def geoFoldElems : List Xml → GeoState → Except PyErr GeoState
  | [], st => .ok st
  | e :: rest, st => do
    let st' ← geoStep st e
    geoFoldElems rest st'

/-- The outer loop of `_extract_coverage`: for every root child holding a
`Tile_Geocoding` element, fold its children through `geoStep`. -/
def geoFoldChildren : List Xml → GeoState → Except PyErr GeoState
  | [], st => .ok st
  | child :: rest, st =>
    match child.findChild "Tile_Geocoding" with
    | none => geoFoldChildren rest st
    | some tg => do
      let st' ← geoFoldElems tg.children st
      geoFoldChildren rest st'

/-- `AwsS2MetaInfoExtractor._extract_coverage`.  The gdal/osr reprojection
of the corner coordinates (via the `B01.jp2` spatial reference) is the
external collaborator `env.transformCoords`; the float rendering of the
format string is `env.showNum`. -/
def AwsS2MetaInfoExtractor.extract_coverage (env : Env) (filename : String) :
    Except PyErr String :=
  match env.files (filename ++ "/metadata.xml") with
  | none => .error .xmlParseError
  | some root => do
    let st ← geoFoldChildren root.children geoState0
    let llx := st.ulx + st.n_rows * st.x_dim
    let lly := st.uly + st.n_cols * st.y_dim
    let coords := [st.ulx, st.uly, llx, st.uly, llx, lly, st.ulx, lly]
    let tc := env.transformCoords filename coords
    let c0 ← pyIdx tc 0
    let c1 ← pyIdx tc 1
    let c2 ← pyIdx tc 2
    let c3 ← pyIdx tc 3
    let c4 ← pyIdx tc 4
    let c5 ← pyIdx tc 5
    let c6 ← pyIdx tc 6
    let c7 ← pyIdx tc 7
    pure ("POLYGON((" ++ env.showNum c0 ++ " " ++ env.showNum c1 ++ ", " ++
      env.showNum c2 ++ " " ++ env.showNum c3 ++ ", " ++
      env.showNum c4 ++ " " ++ env.showNum c5 ++ ", " ++
      env.showNum c6 ++ " " ++ env.showNum c7 ++ ", " ++
      env.showNum c0 ++ " " ++ env.showNum c1 ++ "))")

/-- `AwsS2MetaInfoExtractor.extract_meta_info`. -/
def AwsS2MetaInfoExtractor.extract_meta_info (env : Env) (path : String) :
    Except PyErr DataSetMetaInfo := do
  let coverage ← AwsS2MetaInfoExtractor.extract_coverage env path
  let time ← AwsS2MetaInfoExtractor.extract_time_from_metadata_file env path
  pure ⟨coverage, time, time, "AWS_S2_L1C", path⟩

/-- `AsterMetaInfoExtractor.extract_meta_info`.  The shapely polygon WKT
rendering is `env.polygonWkt`. -/
def AsterMetaInfoExtractor.extract_meta_info (env : Env) (path : String) :
    Except PyErr DataSetMetaInfo := do
  let path_lat_id := pySlice path (-14) (-12)
  let path_lat0 ← pyFloat (pySlice path (-14) (-12))
  let path_lat := if path_lat_id == "S" then -path_lat0 else path_lat0
  let path_lon_id := pySlice path (-12) (-11)
  let path_lon0 ← pyFloat (pySlice path (-11) (-8))
  let path_lon := if path_lon_id == "W" then -path_lon0 else path_lon0
  let coverage := env.polygonWkt [(path_lon, path_lat), (path_lon, path_lat + 1),
    (path_lon + 1, path_lat + 1), (path_lon + 1, path_lat)]
  pure ⟨coverage, none, none, env.dtAster, path⟩

def ModisMcd43.X_STEP : Rat := -463.31271653 * 2400

def ModisMcd43.Y_STEP : Rat := 463.31271653 * 2400

def ModisMcd43.M_Y0 : Rat := -20015109.354

def ModisMcd43.M_X0 : Rat := 10007554.677

/-- `ModisMcd43MetaInfoExtractor._get_tile_coverage`: the four sinusoidal
corner points are reprojected through `env.transformPoint`
(`modis_to_wgs84.TransformPoint`, dropping the z component) and rendered
through `env.polygonWkt`. -/
def ModisMcd43MetaInfoExtractor.get_tile_coverage (env : Env) (h v : Int) : String :=
  let sinu_min_lat := (h : Rat) * ModisMcd43.Y_STEP + ModisMcd43.M_Y0
  let sinu_max_lat := ((h : Rat) + 1) * ModisMcd43.Y_STEP + ModisMcd43.M_Y0
  let sinu_min_lon := (v : Rat) * ModisMcd43.X_STEP + ModisMcd43.M_X0
  let sinu_max_lon := ((v : Rat) + 1) * ModisMcd43.X_STEP + ModisMcd43.M_X0
  let p0 := env.transformPoint sinu_min_lat sinu_min_lon
  let p1 := env.transformPoint sinu_min_lat sinu_max_lon
  let p2 := env.transformPoint sinu_max_lat sinu_min_lon
  let p3 := env.transformPoint sinu_max_lat sinu_max_lon
  env.polygonWkt [p0, p1, p2, p3]

/-- `ModisMcd43MetaInfoExtractor.extract_meta_info`.  The calendar lookup
`get_time_from_year_and_day_of_year` of `multiply_core.util` is the
external collaborator `env.getTimeFromYearAndDoy`. -/
def ModisMcd43MetaInfoExtractor.extract_meta_info (env : Env) (path : String) :
    Except PyErr DataSetMetaInfo := do
  let h ← pyInt (pySlice path (-27) (-25))
  let v ← pyInt (pySlice path (-24) (-22))
  let tile_coverage := ModisMcd43MetaInfoExtractor.get_tile_coverage env h v
  let year ← pyInt (pySlice path (-17) (-13))
  let doy ← pyInt (pySlice path (-13) (-10))
  let date := env.getTimeFromYearAndDoy year doy
  pure ⟨tile_coverage, some (strftimeYmd date), some (strftimeYmd date),
    env.dtModisMcd43, pySliceFrom path (-37)⟩

/-- `S2aMetaInfoExtractor.extract_meta_info`. -/
def S2aMetaInfoExtractor.extract_meta_info (env : Env) (path : String) :
    Except PyErr DataSetMetaInfo :=
  .ok ⟨GLOBAL, none, none, env.dtS2a, path⟩

/-- `S2bMetaInfoExtractor.extract_meta_info`. -/
def S2bMetaInfoExtractor.extract_meta_info (env : Env) (path : String) :
    Except PyErr DataSetMetaInfo :=
  .ok ⟨GLOBAL, none, none, env.dtS2b, path⟩

/-- `WvMetaInfoExtractor.extract_meta_info`. -/
def WvMetaInfoExtractor.extract_meta_info (env : Env) (path : String) :
    Except PyErr DataSetMetaInfo :=
  .ok ⟨GLOBAL, none, none, env.dtWv, path⟩

/-- `CamsMetaInfoExtractor.extract_meta_info` (`path[:-3]` for both
timestamps). -/
def CamsMetaInfoExtractor.extract_meta_info (env : Env) (path : String) :
    Except PyErr DataSetMetaInfo :=
  .ok ⟨GLOBAL, some (pySlice path 0 (-3)), some (pySlice path 0 (-3)), env.dtCams, path⟩

/-- One registered extractor: the pair of its `name()` class method value
and its `extract_meta_info` method. -/
structure RegisteredExtractor where
  name : String
  extract : String → Except PyErr DataSetMetaInfo

def awsS2Ext (env : Env) : RegisteredExtractor :=
  ⟨"AWS_S2_L1C", AwsS2MetaInfoExtractor.extract_meta_info env⟩

def asterExt (env : Env) : RegisteredExtractor :=
  ⟨env.dtAster, AsterMetaInfoExtractor.extract_meta_info env⟩

def s2aExt (env : Env) : RegisteredExtractor :=
  ⟨env.dtS2a, S2aMetaInfoExtractor.extract_meta_info env⟩

def s2bExt (env : Env) : RegisteredExtractor :=
  ⟨env.dtS2b, S2bMetaInfoExtractor.extract_meta_info env⟩

def wvExt (env : Env) : RegisteredExtractor :=
  ⟨env.dtWv, WvMetaInfoExtractor.extract_meta_info env⟩

def camsExt (env : Env) : RegisteredExtractor :=
  ⟨env.dtCams, CamsMetaInfoExtractor.extract_meta_info env⟩

def modisExt (env : Env) : RegisteredExtractor :=
  ⟨env.dtModisMcd43, ModisMcd43MetaInfoExtractor.extract_meta_info env⟩

/-- The provider list built by `DataSetMetaInfoProvision.__init__`, in
registration order. -/
def DataSetMetaInfoProvision (env : Env) : List RegisteredExtractor :=
  [awsS2Ext env, asterExt env, s2aExt env, s2bExt env, wvExt env, camsExt env,
    modisExt env]

/-- `DataSetMetaInfoProvision.get_data_set_meta_info`: scan the registered
providers in order and run the first whose `name()` equals `data_type`;
fall through to `None`. -/
def get_data_set_meta_info (provs : List RegisteredExtractor)
    (data_type path : String) : Except PyErr (Option DataSetMetaInfo) :=
  match provs with
  | [] => .ok none
  | e :: rest =>
    if e.name == data_type then (e.extract path).map some
    else get_data_set_meta_info rest data_type path

def isUpperChar (c : Char) : Bool := 'A' ≤ c && c ≤ 'Z'

/-- Match one character satisfying `p`, then continue with `k`. -/
def matchOne (p : Char → Bool) (k : List Char → Bool) : List Char → Bool
  | [] => false
  | c :: cs => p c && k cs

/-- Match the regex fragment `p{1,2}` (both lengths tried), then continue
with `k`. -/
def matchRep12 (p : Char → Bool) (k : List Char → Bool) : List Char → Bool
  | [] => false
  | c :: cs => p c && (k cs || matchOne p k cs)

/-- `BASIC_AWS_S2_MATCHER.match`, the anchored prefix match of the pattern
`[0-9]{1,2}/[A-Z]/[A-Z]{2}/20[0-9][0-9]/[0-9]{1,2}/[0-9]{1,2}/[0-9]{1,2}`. -/
def basicAwsS2Match : List Char → Bool :=
  matchRep12 isDigitChar (matchOne (fun c => c == '/') (matchOne isUpperChar
    (matchOne (fun c => c == '/') (matchOne isUpperChar (matchOne isUpperChar
    (matchOne (fun c => c == '/') (matchOne (fun c => c == '2')
    (matchOne (fun c => c == '0') (matchOne isDigitChar (matchOne isDigitChar
    (matchOne (fun c => c == '/') (matchRep12 isDigitChar
    (matchOne (fun c => c == '/') (matchRep12 isDigitChar
    (matchOne (fun c => c == '/') (matchRep12 isDigitChar
    (fun _ => true)))))))))))))))))

/-- The `AwsS2FileSystem` instance state: its `_temp_dir` field. -/
structure AwsS2FileSystem where
  temp_dir : String
deriving DecidableEq, Repr

/-- `AwsS2FileSystem._is_valid_identifier`. -/
def AwsS2FileSystem.is_valid_identifier (path : String) : Bool :=
  basicAwsS2Match path.data

/-- `AwsS2FileSystem._get_tile_name`. -/
def AwsS2FileSystem.get_tile_name (id : String) : Except PyErr String := do
  let split_id := pySplit id '/'
  let a ← pyIdx split_id 0
  let b ← pyIdx split_id 1
  let c ← pyIdx split_id 2
  pure (a ++ b ++ c)

/-- `AwsS2FileSystem._get_aws_index`. -/
def AwsS2FileSystem.get_aws_index (id : String) : Except PyErr Int := do
  let s ← pyLast (pySplit id '/')
  pyInt s

/-- Append a trailing slash when absent. -/
def ensureSlash (d : String) : String :=
  if d.data.getLast? = some '/' then d else d ++ "/"

/-- `p` lies in the directory tree rooted at `d`. -/
def underDir (d p : String) : Bool :=
  p == d || (ensureSlash d).data.isPrefixOf p.data

/-- `os.path.exists` over the tracked directory set (a tracked path
implies its ancestors exist on disk). -/
def path_exists (fs : List String) (d : String) : Bool :=
  fs.any (fun p => underDir d p)

/-- `shutil.rmtree d`: remove the whole tree rooted at `d`. -/
def rmtree (fs : List String) (d : String) : List String :=
  fs.filter (fun p => !(underDir d p))

/-- `os.makedirs(d, exist_ok=True)` (parent creation is not tracked
separately). -/
def addDir (fs : List String) (d : String) : List String :=
  if d ∈ fs then fs else d :: fs

/-- The `if os.path.exists(d): shutil.rmtree(d)` pattern. -/
def condRmtree (l : List String) (d : String) : List String :=
  if path_exists l d then rmtree l d else l

/-- The comma-formatted download directory
`'{}/{},{}-{:02d}-{:02d},{}/'` of `_get_file_ref`. -/
def awsSavedDir (temp tile : String) (d : PyDate) (idx : Int) : String :=
  temp ++ "/" ++ tile ++ "," ++ toString d.year ++ "-" ++ pad2 d.month ++ "-" ++
    pad2 d.day ++ "," ++ toString idx ++ "/"

/-- The nested canonical directory
`'{0}/{1}/{2}/{3}/{4}/{5}/{6}/{7}/'` used by both `_get_file_ref`
(`new_dir`) and `_notify_copied_to_local` (`other_file_dir`). -/
def awsNewDir (temp tile : String) (d : PyDate) (idx : Int) : String :=
  temp ++ "/" ++ pySlice tile 0 2 ++ "/" ++ pySlice tile 2 3 ++ "/" ++
    pySlice tile 3 5 ++ "/" ++ toString d.year ++ "/" ++ toString d.month ++ "/" ++
    toString d.day ++ "/" ++ toString idx ++ "/"

/-- The comma-formatted directory `'{0}/{1},{2},{3}/'` of
`_notify_copied_to_local`, with `{2}` a `strftime('%Y-%m-%d')` date. -/
def awsNotifyFileDir (temp tile time : String) (idx : Int) : String :=
  temp ++ "/" ++ tile ++ "," ++ time ++ "," ++ toString idx ++ "/"

/-- The final cleanup of `_get_file_ref`: `try: shutil.rmtree(saved_dir)
except: pass`.  `env.scratchVanishes` models the scratch directory having
been removed by an external agent just before the call, in which case
`rmtree` raises and the bare except swallows the failure; either way the
method continues normally. -/
def awsCleanupScratch (env : Env) (saved_dir : String) (fs2 : List String) :
    List String :=
  let fs2' := if env.scratchVanishes then rmtree fs2 saved_dir else fs2
  condRmtree fs2' saved_dir

/-- `AwsS2FileSystem._get_file_ref` as a transformer of the tracked
directory set.  `env.downloadOk` stands for the success of the sentinelhub
download attempts (when the last fallback also raises, the exception
propagates out of the method); `env.scratchVanishes` models the scratch
directory being removed by an external agent before the final cleanup,
whose own failure the bare `except: pass` swallows.  The result pairs the
Python outcome with the final directory set. -/
def AwsS2FileSystem.get_file_ref (env : Env) (temp_dir : String)
    (info : DataSetMetaInfo) (fs : List String) :
    Except PyErr (Option FileRef) × List String :=
  if !(AwsS2FileSystem.is_valid_identifier info.identifier) then (.ok none, fs)
  else
    match AwsS2FileSystem.get_tile_name info.identifier with
    | .error e => (.error e, fs)
    | .ok tile_name =>
      match info.start_time with
      | none => (.error .typeError, fs)
      | some st =>
        match env.parseTime st with
        | none => (.error (.valueError "invalid time string"), fs)
        | some d =>
          match AwsS2FileSystem.get_aws_index info.identifier with
          | .error e => (.error e, fs)
          | .ok aws_index =>
            let saved_dir := awsSavedDir temp_dir tile_name d aws_index
            let fs1 := addDir (addDir (addDir (addDir fs saved_dir)
              (saved_dir ++ "qi")) (saved_dir ++ "preview")) (saved_dir ++ "auxiliary")
            if !env.downloadOk then (.error .downloadError, fs1)
            else
              let new_dir := awsNewDir temp_dir tile_name d aws_index
              let fs2 := addDir fs1 new_dir
              (.ok (some ⟨new_dir, info.start_time, info.end_time,
                env.mimeType new_dir⟩), awsCleanupScratch env saved_dir fs2)

/-- The metafiles list assembled by `AwsS2FileSystem._get_from_wrapped`
for the download collaborator. -/
def awsMetafiles : List String :=
  ((["DEFECT", "DETFOO", "NODATA", "SATURA", "TECQUA"].product
    ["B01", "B02", "B03", "B04", "B05", "B06", "B07", "B08", "B8A", "B09",
     "B10", "B11", "B12"]).map (fun qb => "qi/MSK_" ++ qb.1 ++ "_" ++ qb.2)) ++
  ["metadata", "tileInfo", "inspire", "manifest", "TCI", "qi/FORMAT_CORRECTNESS",
   "qi/GENERAL_QUALITY", "qi/GEOMETRIC_QUALITY", "qi/SENSOR_QUALITY", "preview*",
   "datastrip/*/metadata", "auxiliary/ECMWFT"]

/-- `AwsS2FileSystem._get_from_wrapped`: collect the single optional file
reference of `_get_file_ref` into a sequence. -/
def AwsS2FileSystem.get_from_wrapped (env : Env) (temp_dir : String)
    (info : DataSetMetaInfo) (fs : List String) :
    Except PyErr (List FileRef) × List String :=
  match AwsS2FileSystem.get_file_ref env temp_dir info fs with
  | (.ok none, fs') => (.ok [], fs')
  | (.ok (some r), fs') => (.ok [r], fs')
  | (.error e, fs') => (.error e, fs')

/-- `AwsS2FileSystem._notify_copied_to_local`. -/
def AwsS2FileSystem.notify_copied_to_local (env : Env) (temp_dir : String)
    (info : DataSetMetaInfo) (fs : List String) : Except PyErr (List String) :=
  match AwsS2FileSystem.get_tile_name info.identifier with
  | .error e => .error e
  | .ok tile_name =>
    match info.start_time with
    | none => .error .typeError
    | some st =>
      match env.parseTime st with
      | none => .error (.valueError "invalid time string")
      | some d =>
        match AwsS2FileSystem.get_aws_index info.identifier with
        | .error e => .error e
        | .ok aws_index =>
          let time := strftimeYmd d
          let file_dir := awsNotifyFileDir temp_dir tile_name time aws_index
          let other_file_dir := awsNewDir temp_dir tile_name d aws_index
          let fs1 := condRmtree fs file_dir
          let fs2 := condRmtree fs1 other_file_dir
          .ok fs2

/-- The state `clear_cache` acts on: the locally tracked directory set,
the remote backend data and the metadata catalog (§3 of the spec). -/
structure SysState where
  localDirs : List String
  remoteData : List String
  catalog : List DataSetMetaInfo

/-- `AwsS2FileSystem.clear_cache`: remove the cache root tree when it
exists. -/
def AwsS2FileSystem.clear_cache (temp_dir : String) (st : SysState) : SysState :=
  { st with localDirs := condRmtree st.localDirs temp_dir }

/-- A configuration mapping handed to an accessor. -/
def Params := List (String × String)

def keyLookup (params : Params) (k : String) : Option String :=
  (params.find? (fun kv => kv.1 == k)).map (fun kv => kv.2)

/-- `AwsS2FileSystem._init_wrapped_file_system`: raise ValueError when the
`temp_dir` option is missing, create the directory when absent, store it
in the instance. -/
def AwsS2FileSystem.init_wrapped_file_system (params : Params) (fs : List String) :
    Except PyErr (AwsS2FileSystem × List String) :=
  match keyLookup params "temp_dir" with
  | none => .error (.valueError
      "No valid temporal directory provided for AWS S2 File System")
  | some t =>
    let fs1 := if path_exists fs t then fs else addDir fs t
    .ok (⟨t⟩, fs1)

/-- `AwsS2FileSystemAccessor.create_from_parameters`: the missing-option
check, then the `AwsS2FileSystem` constructor, which (through
`LocallyWrappedFileSystem.__init__`, a base class not under `src/`,
modelled from §4.3 of the spec) forwards the parameters to
`_init_wrapped_file_system`. -/
def AwsS2FileSystemAccessor.create_from_parameters (params : Params)
    (fs : List String) : Except PyErr (AwsS2FileSystem × List String) :=
  if (keyLookup params "temp_dir").isNone then
    .error (.valueError "No valid temporal directory provided for AWS S2 File System")
  else AwsS2FileSystem.init_wrapped_file_system params fs

/-- Modelled from the spec: the catalog record shape of the persisted JSON
document (§6), `coverage` and the time range being nullable.  The
`JsonMetaInfoProvider` implementation is not under `src/`. -/
structure CatalogRecord where
  coverage : Option String
  start_time : Option String
  end_time : Option String
  data_type : String
  identifier : String
deriving DecidableEq, Repr

/-- Modelled from the spec: a `MetaInfoProvider` query (§4.4): data type,
optional time range, optional region. -/
structure MetaQuery where
  data_type : String
  time_range : Option (String × String)
  region : Option String
deriving DecidableEq, Repr

/-- Lexicographic order on character lists; on timestamps of the fixed
`YYYY-MM-DD hh:mm:ss` shape it coincides with chronological order. -/
def strLeb : List Char → List Char → Bool
  | [], _ => true
  | _ :: _, [] => false
  | a :: as, b :: bs => if a < b then true else if b < a then false else strLeb as bs

/-- Timestamp comparison used by the spec-modelled matcher. -/
def timeLe (a b : String) : Bool := strLeb a.data b.data

/-- Modelled from the spec: the record-against-query matching predicate of
§3: exact type match; temporal overlap non-empty when both the record and
the query specify times (timestamps of the fixed `YYYY-MM-DD hh:mm:ss`
shape compare lexicographically); spatial intersection through the
external geometry collaborator `intersects` when the query gives a
region, the `GLOBAL` sentinel and a null coverage being treated as
globally intersecting and a null time range as always-overlapping. -/
def recordMatchesQuery (intersects : String → String → Bool)
    (q : MetaQuery) (r : CatalogRecord) : Bool :=
  (r.data_type == q.data_type) &&
  (match q.time_range with
   | none => true
   | some (qs, qe) =>
     match r.start_time, r.end_time with
     | some rs, some re => timeLe rs qe && timeLe qs re
     | _, _ => true) &&
  (match q.region with
   | none => true
   | some reg =>
     match r.coverage with
     | none => true
     | some cov => (cov == GLOBAL) || intersects cov reg)

/-- Modelled from the spec: `MetaInfoProvider.query` is a full scan
filtering the catalog through the matching predicate (§4.4). -/
def MetaInfoProvider.query (intersects : String → String → Bool)
    (catalog : List CatalogRecord) (q : MetaQuery) : List CatalogRecord :=
  catalog.filter (recordMatchesQuery intersects q)

/-- A concrete environment used to exercise the embedded code on explicit
inputs. -/
def testEnv : Env where
  files := fun _ => none
  transformCoords := fun _ cs => cs
  showNum := fun _ => "0.0"
  polygonWkt := fun _ => "POLYGON EMPTY"
  getTimeFromYearAndDoy := fun y doy => ⟨y.toNat, 9, doy.toNat % 31 + 1⟩
  parseTime := fun s =>
    match pyInt (pySlice s 0 4), pyInt (pySlice s 5 7), pyInt (pySlice s 8 10) with
    | .ok y, .ok m, .ok d => some ⟨y.toNat, m.toNat, d.toNat⟩
    | _, _, _ => none
  mimeType := fun _ => "application/x-directory"
  transformPoint := fun a b => (a, b)
  downloadOk := true
  scratchVanishes := false
  dtAster := "ASTER"
  dtModisMcd43 := "MCD43A1.006"
  dtS2a := "S2A_EMULATOR"
  dtS2b := "S2B_EMULATOR"
  dtWv := "WV_EMULATOR"
  dtCams := "CAMS"

theorem except_error_bind {ε α β : Type} (e : ε) (f : α → Except ε β) :
    (Except.error e >>= f) = Except.error e := rfl

theorem except_ok_bind {ε α β : Type} (a : α) (f : α → Except ε β) :
    (Except.ok a >>= f) = f a := rfl

/-- Destructure a successful `Except` bind. -/
theorem except_bind_ok {ε α β : Type} {x : Except ε α} {f : α → Except ε β} {b : β}
    (h : (x >>= f) = .ok b) : ∃ a, x = .ok a ∧ f a = .ok b := by
  cases x with
  | error e => rw [except_error_bind] at h; exact Except.noConfusion h
  | ok a => rw [except_ok_bind] at h; exact ⟨a, rfl, h⟩

theorem except_pure_ok {ε α : Type} {a b : α}
    (h : (pure a : Except ε α) = .ok b) : a = b :=
  Except.ok.inj h

/-- Unfolding of the dispatch loop of `get_data_set_meta_info` as a
first-match lookup over the registered names. -/
theorem get_data_set_meta_info_eq_find (provs : List RegisteredExtractor)
    (dt path : String) :
    get_data_set_meta_info provs dt path =
      match provs.find? (fun e => e.name == dt) with
      | none => .ok none
      | some e => (e.extract path).map some := by
  induction provs with
  | nil => rfl
  | cons e rest ih =>
    simp only [get_data_set_meta_info, List.find?_cons]
    by_cases h : (e.name == dt) = true
    · simp only [h, if_pos]
    · simp only [h, Bool.false_eq_true, if_false, ih]

/-- **C3.** `DataSetMetaInfoProvision.get_data_set_meta_info` dispatches by
exact string equality on the registered extractor names: when no registered
name equals the requested data type the call returns the explicit `None`
outcome without raising, and when one matches it returns the result of
that (first matching) extractor's `extract_meta_info` on the path. -/
theorem get_data_set_meta_info_dispatch (env : Env) (dt path : String) :
    (((DataSetMetaInfoProvision env).find? (fun e => e.name == dt) = none) ↔
        ∀ e ∈ DataSetMetaInfoProvision env, e.name ≠ dt)
    ∧ ((∀ e ∈ DataSetMetaInfoProvision env, e.name ≠ dt) →
        get_data_set_meta_info (DataSetMetaInfoProvision env) dt path = .ok none)
    ∧ (∀ e, (DataSetMetaInfoProvision env).find? (fun x => x.name == dt) = some e →
        get_data_set_meta_info (DataSetMetaInfoProvision env) dt path =
          (e.extract path).map some) := by
  have hiff : ((DataSetMetaInfoProvision env).find? (fun e => e.name == dt) = none) ↔
      ∀ e ∈ DataSetMetaInfoProvision env, e.name ≠ dt := by
    rw [List.find?_eq_none]
    constructor
    · intro h e he
      simpa using h e he
    · intro h e he
      simpa using h e he
  refine ⟨hiff, ?_, ?_⟩
  · intro h
    rw [get_data_set_meta_info_eq_find, hiff.mpr h]
  · intro e he
    rw [get_data_set_meta_info_eq_find, he]

/-- Witness for C3 at the concrete environment `testEnv`: an unknown data
type yields `None`, and the registered name AWS_S2_L1C runs the AWS S2
extractor. -/
theorem get_data_set_meta_info_dispatch_witness :
    get_data_set_meta_info (DataSetMetaInfoProvision testEnv) "NO_SUCH_TYPE" "p" =
        .ok none
    ∧ get_data_set_meta_info (DataSetMetaInfoProvision testEnv) "AWS_S2_L1C" "p" =
        ((awsS2Ext testEnv).extract "p").map some := by
  constructor
  · apply (get_data_set_meta_info_dispatch testEnv "NO_SUCH_TYPE" "p").2.1
    intro e he
    simp only [DataSetMetaInfoProvision, List.mem_cons, List.not_mem_nil, or_false] at he
    rcases he with h|h|h|h|h|h|h <;> subst h <;>
      simp [awsS2Ext, asterExt, s2aExt, s2bExt, wvExt, camsExt, modisExt, testEnv]
  · exact (get_data_set_meta_info_dispatch testEnv "AWS_S2_L1C" "p").2.2
      (awsS2Ext testEnv) rfl

theorem aws_extract_start_eq_end (env : Env) (path : String) (r : DataSetMetaInfo)
    (h : AwsS2MetaInfoExtractor.extract_meta_info env path = .ok r) :
    r.start_time = r.end_time := by
  unfold AwsS2MetaInfoExtractor.extract_meta_info at h
  obtain ⟨cov, hc, h⟩ := except_bind_ok h
  obtain ⟨t, ht, h⟩ := except_bind_ok h
  have hr := except_pure_ok h
  rw [← hr]

theorem aster_extract_start_eq_end (env : Env) (path : String) (r : DataSetMetaInfo)
    (h : AsterMetaInfoExtractor.extract_meta_info env path = .ok r) :
    r.start_time = r.end_time := by
  unfold AsterMetaInfoExtractor.extract_meta_info at h
  obtain ⟨lat0, hlat, h⟩ := except_bind_ok h
  obtain ⟨lon0, hlon, h⟩ := except_bind_ok h
  have hr := except_pure_ok h
  rw [← hr]

theorem modis_extract_start_eq_end (env : Env) (path : String) (r : DataSetMetaInfo)
    (h : ModisMcd43MetaInfoExtractor.extract_meta_info env path = .ok r) :
    r.start_time = r.end_time := by
  unfold ModisMcd43MetaInfoExtractor.extract_meta_info at h
  obtain ⟨hh, h1, h⟩ := except_bind_ok h
  obtain ⟨vv, h2, h⟩ := except_bind_ok h
  obtain ⟨yy, h3, h⟩ := except_bind_ok h
  obtain ⟨dd, h4, h⟩ := except_bind_ok h
  have hr := except_pure_ok h
  rw [← hr]

/-- **C8.** Every `DataSetMetaInfo` produced by a registered extractor has
`start_time` and `end_time` either both null (time-invariant types) or
both present with equal timestamps (hence `start_time <= end_time`). -/
theorem extractor_time_invariant (env : Env) (ex : RegisteredExtractor)
    (hex : ex ∈ DataSetMetaInfoProvision env) (path : String) (r : DataSetMetaInfo)
    (h : ex.extract path = .ok r) :
    (r.start_time = none ∧ r.end_time = none) ∨
      ∃ t, r.start_time = some t ∧ r.end_time = some t := by
  have key : r.start_time = r.end_time := by
    simp only [DataSetMetaInfoProvision, List.mem_cons, List.not_mem_nil,
      or_false] at hex
    rcases hex with h1|h1|h1|h1|h1|h1|h1 <;> subst h1
    · exact aws_extract_start_eq_end env path r h
    · exact aster_extract_start_eq_end env path r h
    · rw [← (Except.ok.inj h)]
    · rw [← (Except.ok.inj h)]
    · rw [← (Except.ok.inj h)]
    · rw [← (Except.ok.inj h)]
    · exact modis_extract_start_eq_end env path r h
  cases hs : r.start_time with
  | none => exact Or.inl ⟨rfl, key ▸ hs⟩
  | some t => exact Or.inr ⟨t, rfl, key ▸ hs⟩

/-- The record the S2A emulator extractor of `testEnv` produces on the
path `p`. -/
def s2aRecordP : DataSetMetaInfo :=
  ⟨GLOBAL, none, none, "S2A_EMULATOR", "p"⟩

/-- Witness for C8: the S2A emulator extractor registered in `testEnv`
produces a record with both timestamps null. -/
theorem extractor_time_invariant_witness :
    (s2aRecordP.start_time = none ∧ s2aRecordP.end_time = none) ∨
      ∃ t, s2aRecordP.start_time = some t ∧ s2aRecordP.end_time = some t :=
  extractor_time_invariant testEnv (s2aExt testEnv)
    (by simp [DataSetMetaInfoProvision]) "p" s2aRecordP rfl

/-- A negative-start open-ended Python slice takes the last `k`
characters (all of the string when it is shorter). -/
theorem pySliceFrom_neg (s : String) (k : Nat) (hk : 0 < k) :
    pySliceFrom s (-(k : Int)) = String.mk (s.data.drop (s.data.length - k)) := by
  unfold pySliceFrom pyNormIdx
  rw [if_pos (by omega : (-(k : Int)) < 0)]
  congr 2
  omega

/-- A Python slice `s[-a:-b]` with `b ≤ a ≤ len` is the `a - b` character
window starting `a` characters from the end. -/
theorem pySlice_neg (s : String) (a b : Nat) (ha : 0 < a) (hb : 0 < b)
    (hba : b ≤ a) (hlen : a ≤ s.data.length) :
    pySlice s (-(a : Int)) (-(b : Int)) =
      String.mk ((s.data.drop (s.data.length - a)).take (a - b)) := by
  unfold pySlice pyNormIdx
  rw [if_pos (by omega : (-(b : Int)) < 0), if_pos (by omega : (-(a : Int)) < 0)]
  congr 1
  have h1 : ((s.data.length : Int) + -(b : Int)).toNat = s.data.length - b := by omega
  have h2 : ((s.data.length : Int) + -(a : Int)).toNat = s.data.length - a := by omega
  rw [h1, h2, List.drop_take]
  congr 1
  omega

/-- **C10.** For every path the MODIS MCD43 extractor accepts (the four
fixed-offset numeric windows parse), the produced record carries the last
37 characters of the path as identifier — not the full path when the path
is longer — and both timestamps equal the date computed from the 4-digit
year window at offset -17 and the 3-digit day-of-year window at
offset -13. -/
theorem modis_extract_identifier_and_times (env : Env) (path : String)
    (h v y doy : Int)
    (hh : pyInt (pySlice path (-27) (-25)) = .ok h)
    (hv : pyInt (pySlice path (-24) (-22)) = .ok v)
    (hy : pyInt (pySlice path (-17) (-13)) = .ok y)
    (hd : pyInt (pySlice path (-13) (-10)) = .ok doy) :
    ModisMcd43MetaInfoExtractor.extract_meta_info env path =
      .ok ⟨ModisMcd43MetaInfoExtractor.get_tile_coverage env h v,
        some (strftimeYmd (env.getTimeFromYearAndDoy y doy)),
        some (strftimeYmd (env.getTimeFromYearAndDoy y doy)),
        env.dtModisMcd43, String.mk (path.data.drop (path.data.length - 37))⟩
    ∧ (27 ≤ path.data.length →
        pySlice path (-17) (-13) =
            String.mk ((path.data.drop (path.data.length - 17)).take 4)
          ∧ pySlice path (-13) (-10) =
            String.mk ((path.data.drop (path.data.length - 13)).take 3))
    ∧ (37 < path.data.length →
        String.mk (path.data.drop (path.data.length - 37)) ≠ path) := by
  refine ⟨?_, ?_, ?_⟩
  · simp only [ModisMcd43MetaInfoExtractor.extract_meta_info, hh, hv, hy, hd,
      except_ok_bind]
    have e37 : (-37 : Int) = -((37 : Nat) : Int) := by norm_num
    rw [e37, pySliceFrom_neg path 37 (by omega)]
    rfl
  · intro hlen
    constructor
    · have e17 : (-17 : Int) = -((17 : Nat) : Int) := by norm_num
      have e13 : (-13 : Int) = -((13 : Nat) : Int) := by norm_num
      rw [e17, e13, pySlice_neg path 17 13 (by omega) (by omega) (by omega)
        (by omega)]
    · have e13 : (-13 : Int) = -((13 : Nat) : Int) := by norm_num
      have e10 : (-10 : Int) = -((10 : Nat) : Int) := by norm_num
      rw [e13, e10, pySlice_neg path 13 10 (by omega) (by omega) (by omega)
        (by omega)]
  · intro hlen heq
    have hdata : path.data.drop (path.data.length - 37) = path.data :=
      congrArg String.data heq
    have hlen2 := congrArg List.length hdata
    rw [List.length_drop] at hlen2
    omega

/-- Witness for C10 on a real MODIS MCD43 file name (45 characters): the
identifier is the last 37 characters, not the full path, and the
timestamps come from the year window 2017 and day-of-year window 256. -/
theorem modis_extract_identifier_and_times_witness :
    ModisMcd43MetaInfoExtractor.extract_meta_info testEnv
        "MCD43A1.A2017247.h17v05.006.2017256031007.hdf" =
      .ok ⟨ModisMcd43MetaInfoExtractor.get_tile_coverage testEnv 17 5,
        some (strftimeYmd (testEnv.getTimeFromYearAndDoy 2017 256)),
        some (strftimeYmd (testEnv.getTimeFromYearAndDoy 2017 256)),
        testEnv.dtModisMcd43,
        String.mk (("MCD43A1.A2017247.h17v05.006.2017256031007.hdf" : String).data.drop
          (("MCD43A1.A2017247.h17v05.006.2017256031007.hdf" : String).data.length - 37))⟩
    ∧ (27 ≤ ("MCD43A1.A2017247.h17v05.006.2017256031007.hdf" : String).data.length →
        pySlice "MCD43A1.A2017247.h17v05.006.2017256031007.hdf" (-17) (-13) =
            String.mk ((("MCD43A1.A2017247.h17v05.006.2017256031007.hdf" : String).data.drop
              (("MCD43A1.A2017247.h17v05.006.2017256031007.hdf" : String).data.length - 17)).take 4)
          ∧ pySlice "MCD43A1.A2017247.h17v05.006.2017256031007.hdf" (-13) (-10) =
            String.mk ((("MCD43A1.A2017247.h17v05.006.2017256031007.hdf" : String).data.drop
              (("MCD43A1.A2017247.h17v05.006.2017256031007.hdf" : String).data.length - 13)).take 3))
    ∧ (37 < ("MCD43A1.A2017247.h17v05.006.2017256031007.hdf" : String).data.length →
        String.mk (("MCD43A1.A2017247.h17v05.006.2017256031007.hdf" : String).data.drop
            (("MCD43A1.A2017247.h17v05.006.2017256031007.hdf" : String).data.length - 37)) ≠
          "MCD43A1.A2017247.h17v05.006.2017256031007.hdf") :=
  modis_extract_identifier_and_times testEnv
    "MCD43A1.A2017247.h17v05.006.2017256031007.hdf" 17 5 2017 256 rfl rfl rfl rfl

/-- A syntactically valid `metadata.xml` whose root carries neither a
`SENSING_TIME` element nor any `Tile_Geocoding` fields. -/
def malformedMetadataRoot : Xml :=
  .elem "Level-1C_Tile_ID" [] none [.elem "General_Info" [] none []]

/-- An environment whose file store holds only the malformed metadata
file for the source directory `/archive/tile`, with an identity
reprojection and the Python rendering of the float `0.0`. -/
def envNoSensingTime : Env :=
  { testEnv with
    files := fun p =>
      if p == "/archive/tile/metadata.xml" then some malformedMetadataRoot
      else none }

/-- **C2 (code-bug evidence).** On a source whose metadata XML lacks both
the `SENSING_TIME` element and the `Tile_Geocoding` fields, the
AWS_S2_L1C extractor raises nothing: it returns a fully-formed
`DataSetMetaInfo` whose `start_time` and `end_time` are null and whose
coverage is the degenerate polygon computed from the zero-initialized
geoposition accumulators, instead of the typed unparseable-metadata error
the specification requires. -/
theorem aws_s2_extractor_silent_on_malformed_metadata :
    AwsS2MetaInfoExtractor.extract_meta_info envNoSensingTime "/archive/tile" =
      .ok ⟨"POLYGON((0.0 0.0, 0.0 0.0, 0.0 0.0, 0.0 0.0, 0.0 0.0))",
        none, none, "AWS_S2_L1C", "/archive/tile"⟩ := by
  rfl

/-- An existence-guarded `rmtree` leaves no tracked path in the tree
rooted at `d`. -/
theorem cond_rmtree_removes (l : List String) (d : String) :
    ∀ p ∈ condRmtree l d, underDir d p = false := by
  intro p hp
  unfold condRmtree at hp
  by_cases h : path_exists l d = true
  · rw [if_pos h] at hp
    have := (List.mem_filter.mp hp).2
    simpa using this
  · rw [if_neg h] at hp
    simp only [path_exists, List.any_eq_true] at h
    push_neg at h
    simpa using h p hp

/-- An existence-guarded `rmtree` only removes paths. -/
theorem cond_rmtree_subset (l : List String) (d : String) :
    ∀ p ∈ condRmtree l d, p ∈ l := by
  intro p hp
  unfold condRmtree at hp
  by_cases h : path_exists l d = true
  · rw [if_pos h] at hp
    exact (List.mem_filter.mp hp).1
  · rwa [if_neg h] at hp

/-- After the final (failure-tolerant) cleanup of `_get_file_ref`, no
tracked path lies under the scratch directory. -/
theorem awsCleanupScratch_removes (env : Env) (d : String) (l : List String) :
    ∀ p ∈ awsCleanupScratch env d l, underDir d p = false := by
  intro p hp
  unfold awsCleanupScratch at hp
  exact cond_rmtree_removes _ d p hp

/-- **C4 (amended).** On a successful download, `_get_file_ref` removes
the scratch download directory and returns the `FileRef` to the canonical
nested path; the cleanup sits in a bare try/except, so even when the
scratch directory has already vanished (`env.scratchVanishes` arbitrary)
the cleanup failure is ignored and the successful result stands.  On a
failed download the exception propagates without cleanup — see the
counterexample theorem. -/
theorem get_file_ref_success_cleanup (env : Env) (temp_dir : String)
    (info : DataSetMetaInfo) (fs : List String) (st : String) (d : PyDate)
    (tile : String) (idx : Int)
    (hval : AwsS2FileSystem.is_valid_identifier info.identifier = true)
    (htile : AwsS2FileSystem.get_tile_name info.identifier = .ok tile)
    (hst : info.start_time = some st)
    (hd : env.parseTime st = some d)
    (hidx : AwsS2FileSystem.get_aws_index info.identifier = .ok idx)
    (hdl : env.downloadOk = true) :
    (AwsS2FileSystem.get_file_ref env temp_dir info fs).1 =
      .ok (some ⟨awsNewDir temp_dir tile d idx, info.start_time, info.end_time,
        env.mimeType (awsNewDir temp_dir tile d idx)⟩)
    ∧ ∀ p ∈ (AwsS2FileSystem.get_file_ref env temp_dir info fs).2,
        underDir (awsSavedDir temp_dir tile d idx) p = false := by
  have hred : AwsS2FileSystem.get_file_ref env temp_dir info fs =
      (.ok (some ⟨awsNewDir temp_dir tile d idx, info.start_time, info.end_time,
        env.mimeType (awsNewDir temp_dir tile d idx)⟩),
       awsCleanupScratch env (awsSavedDir temp_dir tile d idx)
         (addDir (addDir (addDir (addDir (addDir fs
             (awsSavedDir temp_dir tile d idx))
           (awsSavedDir temp_dir tile d idx ++ "qi"))
           (awsSavedDir temp_dir tile d idx ++ "preview"))
           (awsSavedDir temp_dir tile d idx ++ "auxiliary"))
           (awsNewDir temp_dir tile d idx))) := by
    unfold AwsS2FileSystem.get_file_ref
    simp only [hval, htile, hst, hd, hidx, hdl, Bool.not_true, Bool.false_eq_true,
      if_false]
  rw [hred]
  exact ⟨rfl, awsCleanupScratch_removes env _ _⟩

/-- The AWS S2 record of the spec scenario: tile 29SQB of 2017-09-04,
index 0. -/
def infoS2 : DataSetMetaInfo :=
  ⟨"POLY", some "2017-09-04 11:18:25", some "2017-09-04 11:18:25", "AWS_S2_L1C",
    "29/S/QB/2017/9/4/0"⟩

/-- `testEnv` with the scratch directory vanishing before cleanup. -/
def envScratchGone : Env := { testEnv with scratchVanishes := true }

/-- Witness for C4: even with the scratch directory already removed before
the final cleanup, the fetch returns the `FileRef` to the canonical path
and no tracked path remains under the scratch directory. -/
theorem get_file_ref_success_cleanup_witness :
    (AwsS2FileSystem.get_file_ref envScratchGone "/cache" infoS2 []).1 =
      .ok (some ⟨awsNewDir "/cache" "29SQB" ⟨2017, 9, 4⟩ 0, infoS2.start_time,
        infoS2.end_time,
        envScratchGone.mimeType (awsNewDir "/cache" "29SQB" ⟨2017, 9, 4⟩ 0)⟩)
    ∧ ∀ p ∈ (AwsS2FileSystem.get_file_ref envScratchGone "/cache" infoS2 []).2,
        underDir (awsSavedDir "/cache" "29SQB" ⟨2017, 9, 4⟩ 0) p = false :=
  get_file_ref_success_cleanup envScratchGone "/cache" infoS2 []
    "2017-09-04 11:18:25" ⟨2017, 9, 4⟩ "29SQB" 0 rfl rfl rfl rfl rfl rfl

/-- `testEnv` with all download attempts failing. -/
def envDownloadFail : Env := { testEnv with downloadOk := false }

/-- **C4 counterexample.** When the download fails, `_get_file_ref`
propagates the exception and the scratch download directory it created is
NOT cleaned up: the claim that the scratch subdirectory is removed on both
success and failure is false on the code. -/
theorem get_file_ref_failure_leaves_scratch :
    (AwsS2FileSystem.get_file_ref envDownloadFail "/cache" infoS2 []).1 =
      .error .downloadError
    ∧ "/cache/29SQB,2017-09-04,0/" ∈
        (AwsS2FileSystem.get_file_ref envDownloadFail "/cache" infoS2 []).2 := by
  constructor
  · rfl
  · decide

/-- **C6.** For an identifier that does not match the AWS S2
tile/year/month/day/index pattern, the resolve operation returns the
explicit empty sequence of file references — no exception, and the
tracked directory set is untouched. -/
theorem get_from_wrapped_invalid_identifier (env : Env) (temp_dir : String)
    (info : DataSetMetaInfo) (fs : List String)
    (h : AwsS2FileSystem.is_valid_identifier info.identifier = false) :
    AwsS2FileSystem.get_from_wrapped env temp_dir info fs = (.ok [], fs) := by
  unfold AwsS2FileSystem.get_from_wrapped AwsS2FileSystem.get_file_ref
  rw [h]
  rfl

/-- A record with an identifier no AWS S2 backend can resolve. -/
def infoBadId : DataSetMetaInfo :=
  ⟨"POLY", none, none, "AWS_S2_L1C", "not-an-identifier"⟩

/-- Witness for C6 at a concrete malformed identifier. -/
theorem get_from_wrapped_invalid_identifier_witness :
    AwsS2FileSystem.get_from_wrapped testEnv "/cache" infoBadId [] = (.ok [], []) :=
  get_from_wrapped_invalid_identifier testEnv "/cache" infoBadId [] rfl

theorem pad4_eq_toString (y : Nat) (h1 : 1000 ≤ y) (h2 : y < 10000) :
    pad4 y = toString y := by
  unfold pad4
  rw [if_neg (by omega), if_neg (by omega), if_neg (by omega)]

/-- For four-digit years the `strftime`-formatted directory of
`_notify_copied_to_local` coincides with the download directory
`_get_file_ref` creates. -/
theorem notify_dir_eq_saved_dir (temp tile : String) (d : PyDate) (idx : Int)
    (h1 : 1000 ≤ d.year) (h2 : d.year < 10000) :
    awsNotifyFileDir temp tile (strftimeYmd d) idx = awsSavedDir temp tile d idx := by
  unfold awsNotifyFileDir awsSavedDir strftimeYmd
  rw [pad4_eq_toString d.year h1 h2]
  simp only [String.append_assoc]

/-- **C9.** For a record whose AWS S2 identifier and start time parse,
`_notify_copied_to_local` succeeds on every starting state and leaves
neither the comma-formatted download directory nor the nested canonical
directory behind (removing nothing that is not tracked); for four-digit
years the comma-formatted directory is exactly the scratch directory a
fetch of that record creates, and the nested one is the fetch's canonical
target. -/
theorem notify_copied_to_local_removes_dirs (env : Env) (temp_dir : String)
    (info : DataSetMetaInfo) (fs : List String) (tile st : String) (d : PyDate)
    (idx : Int)
    (htile : AwsS2FileSystem.get_tile_name info.identifier = .ok tile)
    (hst : info.start_time = some st)
    (hd : env.parseTime st = some d)
    (hidx : AwsS2FileSystem.get_aws_index info.identifier = .ok idx) :
    AwsS2FileSystem.notify_copied_to_local env temp_dir info fs =
      .ok (condRmtree (condRmtree fs
        (awsNotifyFileDir temp_dir tile (strftimeYmd d) idx))
        (awsNewDir temp_dir tile d idx))
    ∧ (∀ p ∈ condRmtree (condRmtree fs
        (awsNotifyFileDir temp_dir tile (strftimeYmd d) idx))
        (awsNewDir temp_dir tile d idx),
        underDir (awsNotifyFileDir temp_dir tile (strftimeYmd d) idx) p = false
          ∧ underDir (awsNewDir temp_dir tile d idx) p = false ∧ p ∈ fs)
    ∧ (1000 ≤ d.year → d.year < 10000 →
        awsNotifyFileDir temp_dir tile (strftimeYmd d) idx =
          awsSavedDir temp_dir tile d idx) := by
  refine ⟨?_, ?_, notify_dir_eq_saved_dir temp_dir tile d idx⟩
  · unfold AwsS2FileSystem.notify_copied_to_local
    simp only [htile, hst, hd, hidx]
  · intro p hp
    have hp1 := cond_rmtree_subset _ _ p hp
    refine ⟨cond_rmtree_removes _ _ p hp1, cond_rmtree_removes _ _ p hp, ?_⟩
    exact cond_rmtree_subset _ _ p hp1

/-- Witness for C9: notifying for the 29SQB tile of 2017-09-04 removes
both intermediate directories from a populated cache state and succeeds. -/
theorem notify_copied_to_local_removes_dirs_witness :
    AwsS2FileSystem.notify_copied_to_local testEnv "/cache" infoS2
        ["/cache/29SQB,2017-09-04,0/", "/cache/29/S/QB/2017/9/4/0/", "/other"] =
      .ok (condRmtree (condRmtree
        ["/cache/29SQB,2017-09-04,0/", "/cache/29/S/QB/2017/9/4/0/", "/other"]
        (awsNotifyFileDir "/cache" "29SQB" (strftimeYmd ⟨2017, 9, 4⟩) 0))
        (awsNewDir "/cache" "29SQB" ⟨2017, 9, 4⟩ 0))
    ∧ (∀ p ∈ condRmtree (condRmtree
        ["/cache/29SQB,2017-09-04,0/", "/cache/29/S/QB/2017/9/4/0/", "/other"]
        (awsNotifyFileDir "/cache" "29SQB" (strftimeYmd ⟨2017, 9, 4⟩) 0))
        (awsNewDir "/cache" "29SQB" ⟨2017, 9, 4⟩ 0),
        underDir (awsNotifyFileDir "/cache" "29SQB" (strftimeYmd ⟨2017, 9, 4⟩) 0) p
            = false
          ∧ underDir (awsNewDir "/cache" "29SQB" ⟨2017, 9, 4⟩ 0) p = false
          ∧ p ∈ ["/cache/29SQB,2017-09-04,0/", "/cache/29/S/QB/2017/9/4/0/",
              "/other"])
    ∧ (1000 ≤ (⟨2017, 9, 4⟩ : PyDate).year → (⟨2017, 9, 4⟩ : PyDate).year < 10000 →
        awsNotifyFileDir "/cache" "29SQB" (strftimeYmd ⟨2017, 9, 4⟩) 0 =
          awsSavedDir "/cache" "29SQB" ⟨2017, 9, 4⟩ 0) :=
  notify_copied_to_local_removes_dirs testEnv "/cache" infoS2
    ["/cache/29SQB,2017-09-04,0/", "/cache/29/S/QB/2017/9/4/0/", "/other"]
    "29SQB" "2017-09-04 11:18:25" ⟨2017, 9, 4⟩ 0 rfl rfl rfl rfl

/-- **C5.** `clear_cache()` removes the whole cache-root tree from the
local state and nothing else: the remote data and the metadata catalog
are untouched, every surviving local path is one that was already present
and lies outside the cache root, and every local path outside the cache
root survives. -/
theorem clear_cache_removes_root_only (temp_dir : String) (st : SysState) :
    (AwsS2FileSystem.clear_cache temp_dir st).remoteData = st.remoteData
    ∧ (AwsS2FileSystem.clear_cache temp_dir st).catalog = st.catalog
    ∧ (∀ p ∈ (AwsS2FileSystem.clear_cache temp_dir st).localDirs,
        underDir temp_dir p = false)
    ∧ (∀ p ∈ st.localDirs, underDir temp_dir p = false →
        p ∈ (AwsS2FileSystem.clear_cache temp_dir st).localDirs)
    ∧ (∀ p ∈ (AwsS2FileSystem.clear_cache temp_dir st).localDirs,
        p ∈ st.localDirs) := by
  refine ⟨rfl, rfl, ?_, ?_, ?_⟩
  · exact cond_rmtree_removes st.localDirs temp_dir
  · intro p hp hu
    show p ∈ condRmtree st.localDirs temp_dir
    unfold condRmtree
    by_cases h : path_exists st.localDirs temp_dir = true
    · rw [if_pos h]
      exact List.mem_filter.mpr ⟨hp, by simp [hu]⟩
    · rwa [if_neg h]
  · exact cond_rmtree_subset st.localDirs temp_dir

/-- A populated system state: two local directories (one under the cache
root), one remote item, a one-record catalog. -/
def sysState0 : SysState :=
  ⟨["/cache/29SQB,2017-09-04,0/", "/data/b"], ["remote-item"], [infoS2]⟩

/-- Witness for C5: clearing the cache root of `sysState0` keeps the
catalog and remote data, keeps the unrelated local directory, and leaves
nothing under the root. -/
theorem clear_cache_removes_root_only_witness :
    (AwsS2FileSystem.clear_cache "/cache" sysState0).catalog = [infoS2]
    ∧ (AwsS2FileSystem.clear_cache "/cache" sysState0).remoteData = ["remote-item"]
    ∧ "/data/b" ∈ (AwsS2FileSystem.clear_cache "/cache" sysState0).localDirs
    ∧ ∀ p ∈ (AwsS2FileSystem.clear_cache "/cache" sysState0).localDirs,
        underDir "/cache" p = false := by
  refine ⟨(clear_cache_removes_root_only "/cache" sysState0).2.1.trans rfl,
    (clear_cache_removes_root_only "/cache" sysState0).1.trans rfl,
    (clear_cache_removes_root_only "/cache" sysState0).2.2.2.1 "/data/b"
      (by decide) (by decide),
    (clear_cache_removes_root_only "/cache" sysState0).2.2.1⟩

/-- **C7.** Construction of the AWS S2 backend fails fast with the
descriptive ValueError when the `temp_dir` option is missing — both in
the accessor's `create_from_parameters` and in
`_init_wrapped_file_system` — and with the option present both return a
ready instance holding that directory (creating it when absent). -/
theorem aws_s2_construction_fails_fast (params : Params) (fs : List String) :
    (keyLookup params "temp_dir" = none →
      AwsS2FileSystemAccessor.create_from_parameters params fs =
          .error (.valueError
            "No valid temporal directory provided for AWS S2 File System")
        ∧ AwsS2FileSystem.init_wrapped_file_system params fs =
          .error (.valueError
            "No valid temporal directory provided for AWS S2 File System"))
    ∧ ∀ t, keyLookup params "temp_dir" = some t →
        AwsS2FileSystemAccessor.create_from_parameters params fs =
            .ok (⟨t⟩, if path_exists fs t then fs else addDir fs t)
          ∧ AwsS2FileSystem.init_wrapped_file_system params fs =
            .ok (⟨t⟩, if path_exists fs t then fs else addDir fs t) := by
  constructor
  · intro h
    constructor
    · unfold AwsS2FileSystemAccessor.create_from_parameters
      rw [h]
      rfl
    · unfold AwsS2FileSystem.init_wrapped_file_system
      rw [h]
  · intro t h
    constructor
    · unfold AwsS2FileSystemAccessor.create_from_parameters
        AwsS2FileSystem.init_wrapped_file_system
      rw [h]
      rfl
    · unfold AwsS2FileSystem.init_wrapped_file_system
      rw [h]

/-- Witness for C7: an empty configuration is rejected with the
descriptive error; a configuration with `temp_dir` yields the instance. -/
theorem aws_s2_construction_fails_fast_witness :
    AwsS2FileSystemAccessor.create_from_parameters [] [] =
        .error (.valueError
          "No valid temporal directory provided for AWS S2 File System")
    ∧ AwsS2FileSystemAccessor.create_from_parameters [("temp_dir", "/cache")] [] =
        .ok (⟨"/cache"⟩,
          if path_exists [] "/cache" then [] else addDir [] "/cache") :=
  ⟨((aws_s2_construction_fails_fast [] []).1 rfl).1,
    ((aws_s2_construction_fails_fast [("temp_dir", "/cache")] []).2 "/cache"
      rfl).1⟩

/-- **C1 (spec-modelled).** Every record a query returns satisfies the
query's constraints: exact data-type match; when the query has a time
range and the record has both timestamps, the ranges overlap; when the
query has a region and the record a coverage, the coverage is the global
sentinel or intersects the region (null coverage and null time ranges
match everything by construction). -/
theorem query_result_matches (intersects : String → String → Bool)
    (catalog : List CatalogRecord) (q : MetaQuery) (r : CatalogRecord)
    (h : r ∈ MetaInfoProvider.query intersects catalog q) :
    r.data_type = q.data_type
    ∧ (∀ qs qe rs re, q.time_range = some (qs, qe) → r.start_time = some rs →
        r.end_time = some re → timeLe rs qe = true ∧ timeLe qs re = true)
    ∧ (∀ reg cov, q.region = some reg → r.coverage = some cov →
        cov = GLOBAL ∨ intersects cov reg = true) := by
  unfold MetaInfoProvider.query at h
  rw [List.mem_filter] at h
  obtain ⟨-, hm⟩ := h
  unfold recordMatchesQuery at hm
  simp only [Bool.and_eq_true, beq_iff_eq] at hm
  obtain ⟨⟨hdt, htime⟩, hreg⟩ := hm
  refine ⟨hdt, ?_, ?_⟩
  · intro qs qe rs re hq hrs hre
    rw [hq, hrs, hre] at htime
    simp only [Bool.and_eq_true] at htime
    exact htime
  · intro reg cov hq hcov
    rw [hq, hcov] at hreg
    simp only [Bool.or_eq_true, beq_iff_eq] at hreg
    exact hreg

/-- The external geometry collaborator that reports every intersection as
non-empty. -/
def alwaysIntersects : String → String → Bool := fun _ _ => true

/-- The catalog record of the spec scenario (§8). -/
def catalogRecS2 : CatalogRecord :=
  ⟨some GLOBAL, some "2017-09-04 11:18:25", some "2017-09-04 11:18:25",
    "AWS_S2_L1C", "/archive/29/S/QB/2017/9/4/0"⟩

/-- The query of the spec scenario: AWS_S2_L1C data on 2017-09-04 over
some region. -/
def queryS2 : MetaQuery :=
  ⟨"AWS_S2_L1C", some ("2017-09-04 00:00:00", "2017-09-04 23:59:59"),
    some "POLYGON((0 0, 1 0, 1 1, 0 1, 0 0))"⟩

/-- Witness for C1: the scenario record is returned by the scenario query
and satisfies all three constraints. -/
theorem query_result_matches_witness :
    catalogRecS2.data_type = queryS2.data_type
    ∧ (∀ qs qe rs re, queryS2.time_range = some (qs, qe) →
        catalogRecS2.start_time = some rs → catalogRecS2.end_time = some re →
        timeLe rs qe = true ∧ timeLe qs re = true)
    ∧ (∀ reg cov, queryS2.region = some reg → catalogRecS2.coverage = some cov →
        cov = GLOBAL ∨ alwaysIntersects cov reg = true) :=
  query_result_matches alwaysIntersects [catalogRecS2] queryS2 catalogRecS2
    (by unfold MetaInfoProvider.query
        exact List.mem_filter.mpr ⟨List.mem_singleton_self _, by decide⟩)
